import Mathlib

/-!
Verification of `mayo/task/base.py` (`TFTaskBase`): a shallow embedding of the
multi-GPU task coordinator, with theorems settling the specification claims.

Python values flowing through the coordinator (input tensors, predictions,
truths, names, folders) are embedded as an inductive `PyObj` so that the
dynamic `isinstance(mapping, collections.Mapping)` test of
`_register_estimates` can be expressed.  External collaborators (the `TFNet`
`outputs()` query of the net builder, the `transform` override, the `generate` /
`augment` data sources, the `train` / `eval` overrides) are parameters of the
construction; the estimator is modelled by tracing the `register` calls made
to it.
-/

namespace Mayo

/-- Embedding of the Python values handled by the task coordinator: `None`,
strings, opaque non-mapping values ("tensors", tagged by an id), and
key-to-value mappings. -/
inductive PyObj where
  | none : PyObj
  | str : String → PyObj
  | tensor : Nat → PyObj
  | map : List (String × PyObj) → PyObj
deriving Repr, Inhabited

/-- Embedding of Python `isinstance(x, collections.Mapping)`. -/
def PyObj.isMapping : PyObj → Bool
  | .map _ => true
  | _ => false

/-- Embedding of Python `str(x)` as used by the dotted-path format call of
`_register_estimates`.  On every path reachable from `_register_estimates`
the formatted `root` is a string (the dotted path), so only the `.str` case
matters; the other cases are given a simple rendering for totality. -/
def PyObj.format : PyObj → String
  | .none => "None"
  | .str s => s
  | .tensor n => "tensor:" ++ toString n
  | .map _ => "mapping"

/-- Modelled from the spec: `mayo.error.NotImplementedError` (called
"UnimplementedCapability" by the spec), an error kind carrying a human-readable message
naming the missing capability; the class itself lives outside
`src/` (`mayo/error.py`), so only its message payload is modelled. -/
structure NotImplementedError where
  message : String
deriving Repr, DecidableEq

/-- Modelled from the spec: `config.system.search_path.run` exposing the
configured test input folders (`inputs`). -/
structure RunPath where
  inputs : List PyObj
deriving Inhabited

/-- Modelled from the spec: `config.system.search_path`. -/
structure SearchPath where
  run : RunPath
deriving Inhabited

/-- Modelled from the spec: the `system` section of the configuration,
with the device count `num_gpus`. -/
structure SystemConfig where
  num_gpus : Nat
  search_path : SearchPath
deriving Inhabited

/-- Modelled from the spec: the session configuration, with the `system`
section and the `model` spec (an opaque value handed to the net builder). -/
structure Config where
  system : SystemConfig
  model : PyObj
deriving Inhabited

/-- Modelled from the spec: the session object.  `isTest` embeds the
run-time type test `isinstance(session, Test)`; `mode` is one of
`"train"` / `"validate"` / `"test"`. -/
structure Session where
  config : Config
  mode : String
  isTest : Bool
deriving Inhabited

/-- A device-binding scope: the `tf.device` string and the `tf.name_scope`
opened by `_gpu_context`. -/
structure GpuContext where
  device : String
  scope : String
deriving Repr, DecidableEq, Inhabited

/-- Embedding of `TFTaskBase._gpu_context(gid)`: binds device
`/gpu:` followed by `gid` and opens the uniquely named scope `tower_` followed by `gid`. -/
def _gpu_context (gid : Nat) : GpuContext :=
  { device := "/gpu:" ++ toString gid, scope := "tower_" ++ toString gid }

/-- Embedding of a `TFNet` graph replica: the constructor arguments
`TFNet(session, model, data, reuse)` plus the device-binding context that
was ambient (`_gpu_context(i)`) when the replica was constructed. -/
structure TFNet where
  session : Session
  model : PyObj
  data : PyObj
  reuse : Bool
  ctx : GpuContext
deriving Inhabited

/-- One `estimator.register(value, path, history=history)` call, recorded in
the positional order of the estimator interface `register(value, path,
history)`. -/
structure RegCall where
  value : PyObj
  path : PyObj
  history : Option String
deriving Repr

/-- The history window: `infinite` when the mode is `validate`, otherwise
`None`. -/
def historyOf (mode : String) : Option String :=
  if mode = "validate" then some "infinite" else none

mutual

/-- Mapping-nesting depth of a `PyObj`, used as the termination measure of
`registerAux` below. -/
def PyObj.depth : PyObj → Nat
  | .map kvs => 1 + depthList kvs
  | _ => 0

/-- Mapping-nesting depth of a list of key-value items. -/
def depthList : List (String × PyObj) → Nat
  | [] => 0
  | (_, v) :: rest => 1 + PyObj.depth v + depthList rest

end

mutual

/-- Embedding of the inner helper `register(root, mapping)` of
`_register_estimates`: when `mapping` is not a mapping it calls
`estimator.register(mapping, root, history=history)`; otherwise it iterates
the items, recursing with `register(value, path)` where `path` joins the
formatted `root` and the item key with a dot — note the source passes
`value` in the `root` position and the dotted path in the `mapping`
position. -/
def registerAux (mode : String) (root mapping : PyObj) : List RegCall :=
  match mapping with
  | PyObj.map kvs => registerList mode root kvs
  | m => [{ value := m, path := root, history := historyOf mode }]
termination_by PyObj.depth mapping
decreasing_by all_goals (simp [PyObj.depth, depthList]; try omega)

/-- Iteration of `for key, value in mapping.items()` inside
`_register_estimates.register`. -/
def registerList (mode : String) (root : PyObj) :
    List (String × PyObj) → List RegCall
  | [] => []
  | (key, value) :: rest =>
      registerAux mode value (PyObj.str (root.format ++ "." ++ key)) ++
        registerList mode root rest
termination_by kvs => depthList kvs
decreasing_by all_goals (simp [PyObj.depth, depthList]; try omega)

end

/-- Embedding of `TFTaskBase._register_estimates(prediction, truth)`:
the inner `register` helper applied to root `prediction` with the
prediction structure, then to root `truth` with the truth structure,
returning the trace of `estimator.register` calls made. -/
def _register_estimates (mode : String) (prediction truth : PyObj) :
    List RegCall :=
  registerAux mode (PyObj.str "prediction") prediction ++
    registerAux mode (PyObj.str "truth") truth

/-- Embedding of the default `TFTaskBase.transform(net, data, prediction,
truth)`: the identity on `(data, prediction, truth)`. -/
def transform (net : TFNet) (data prediction truth : PyObj) :
    PyObj × PyObj × PyObj :=
  (data, prediction, truth)

/-- The five parallel lists built by `_instantiate_nets`, together with the
trace of estimator mutations (`regCalls`) and the number of times
`_register_estimates` was invoked (`regInvocations`). -/
structure LoopResult where
  nets : List TFNet
  inputs : List PyObj
  predictions : List PyObj
  truths : List PyObj
  names : List PyObj
  regCalls : List RegCall
  regInvocations : Nat

section Loop

variable (session : Session) (isTest : Bool) (mode : String) (model : PyObj)
variable (outputs : TFNet → PyObj)
variable (transformFn : TFNet → PyObj → PyObj → PyObj → PyObj × PyObj × PyObj)

/-- Embedding of the loop body of `_instantiate_nets`:
`for i, (data, additional) in enumerate(iterer)`.  `netsAcc` is the `nets`
list accumulated so far (driving the `bool(nets)` reuse flag); each
iteration splits `additional` into `(name, truth)`, constructs
`TFNet(session, model, data, bool(nets))` under `_gpu_context(i)`, queries
`net.outputs()`, applies the `transform` override, registers estimates when
`i == 0`, and appends to the five lists. -/
def instantiateLoop :
    List (PyObj × PyObj) → Nat → List TFNet → LoopResult
  | [], _, _ => ⟨[], [], [], [], [], [], 0⟩
  | (data, additional) :: rest, i, netsAcc =>
    let name := if isTest then additional else PyObj.none
    let truth := if isTest then PyObj.none else additional
    let net : TFNet :=
      { session := session, model := model, data := data,
        reuse := !netsAcc.isEmpty, ctx := _gpu_context i }
    let prediction := outputs net
    let dpt := transformFn net data prediction truth
    let regs :=
      if i = 0 then _register_estimates mode dpt.2.1 dpt.2.2 else []
    let r := instantiateLoop rest (i + 1) (netsAcc ++ [net])
    ⟨net :: r.nets, dpt.1 :: r.inputs, dpt.2.1 :: r.predictions,
      dpt.2.2 :: r.truths, name :: r.names, regs ++ r.regCalls,
      (if i = 0 then 1 else 0) + r.regInvocations⟩

/-- The replica constructed at iteration `ip.1` for pair `ip.2`: since one
net is appended per iteration, `bool(nets)` at index `i` equals `i ≠ 0`. -/
def replicaNet (ip : Nat × (PyObj × PyObj)) : TFNet :=
  { session := session, model := model, data := ip.2.1,
    reuse := decide (ip.1 ≠ 0), ctx := _gpu_context ip.1 }

/-- The `(data, prediction, truth)` triple after the `transform` override at
iteration `ip.1`. -/
def replicaTriple (ip : Nat × (PyObj × PyObj)) : PyObj × PyObj × PyObj :=
  transformFn (replicaNet session model ip) ip.2.1
    (outputs (replicaNet session model ip))
    (if isTest then PyObj.none else ip.2.2)

/-- The transformed input stored for iteration `ip.1`. -/
def replicaInput (ip : Nat × (PyObj × PyObj)) : PyObj :=
  (replicaTriple session isTest model outputs transformFn ip).1

/-- The transformed prediction stored for iteration `ip.1`. -/
def replicaPrediction (ip : Nat × (PyObj × PyObj)) : PyObj :=
  (replicaTriple session isTest model outputs transformFn ip).2.1

/-- The transformed truth stored for iteration `ip.1`. -/
def replicaTruth (ip : Nat × (PyObj × PyObj)) : PyObj :=
  (replicaTriple session isTest model outputs transformFn ip).2.2

/-- The name stored for iteration `ip.1`: `additional` in test mode, `None`
otherwise. -/
def replicaName (ip : Nat × (PyObj × PyObj)) : PyObj :=
  if isTest then ip.2.2 else PyObj.none

/-- The estimator mutations contributed by the loop when the first iteration
has index `i₀`: only index 0 registers. -/
def regsOf (i₀ : Nat) : List (PyObj × PyObj) → List RegCall
  | [] => []
  | p :: _ =>
    if i₀ = 0 then
      _register_estimates mode
        (replicaPrediction session isTest model outputs transformFn (i₀, p))
        (replicaTruth session isTest model outputs transformFn (i₀, p))
    else []

/-- The number of `_register_estimates` invocations made by the loop when the
first iteration has index `i₀`. -/
def invOf (i₀ : Nat) : List (PyObj × PyObj) → Nat
  | [] => 0
  | _ :: _ => if i₀ = 0 then 1 else 0

end Loop

/-- The data-source pairs `_instantiate_nets` iterates over: in test mode
`augment(folder)` with `folder = config.system.search_path.run.inputs[0]`,
otherwise `generate()`.  The `generate` and `augment` of specializations are
parameters (`genPairs`, `augmentFn`). -/
def pairsOf (session : Session) (genPairs : List (PyObj × PyObj))
    (augmentFn : PyObj → List (PyObj × PyObj)) : List (PyObj × PyObj) :=
  if session.isTest then
    augmentFn ((session.config.system.search_path.run.inputs).getD 0 PyObj.none)
  else genPairs

/-- Embedding of the `TFTaskBase` object state after `__init__`: the session
attributes copied in `__init__` plus the five parallel sequences built by
`_instantiate_nets`, the estimator-mutation trace, and the specialized
`train` / `eval` overrides (stored so that `map_train` / `map_eval` can call
`self.train` / `self.eval`). -/
structure TFTaskBase where
  session : Session
  is_test : Bool
  config : Config
  num_gpus : Nat
  mode : String
  nets : List TFNet
  inputs : List PyObj
  predictions : List PyObj
  truths : List PyObj
  names : List PyObj
  regCalls : List RegCall
  regInvocations : Nat
  trainOverride : GpuContext → TFNet → PyObj → PyObj → PyObj
  evalOverride : GpuContext → TFNet → PyObj → PyObj → PyObj

/-- Embedding of `TFTaskBase.__init__(session)` followed by
`_instantiate_nets`: `is_test = isinstance(session, Test)`,
`num_gpus = config.system.num_gpus`, then the instantiation loop over the
data source, starting at index 0 with an empty `nets` list. -/
def TFTaskBase.init (session : Session)
    (genPairs : List (PyObj × PyObj))
    (augmentFn : PyObj → List (PyObj × PyObj))
    (outputs : TFNet → PyObj)
    (transformFn : TFNet → PyObj → PyObj → PyObj → PyObj × PyObj × PyObj)
    (trainFn evalFn : GpuContext → TFNet → PyObj → PyObj → PyObj) :
    TFTaskBase :=
  let r := instantiateLoop session session.isTest session.mode
    session.config.model outputs transformFn
    (pairsOf session genPairs augmentFn) 0 []
  { session := session, is_test := session.isTest, config := session.config,
    num_gpus := session.config.system.num_gpus, mode := session.mode,
    nets := r.nets, inputs := r.inputs, predictions := r.predictions,
    truths := r.truths, names := r.names, regCalls := r.regCalls,
    regInvocations := r.regInvocations,
    trainOverride := trainFn, evalOverride := evalFn }

/-- Embedding of the generator loop of `TFTaskBase.map(func)`:
`for i, (net, prediction, truth) in enumerate(zip(nets, predictions,
truths))`, yielding `func(net, prediction, truth)` inside
`_gpu_context(i)` (the active context is passed to `func` explicitly).
Like the Python `zip`, iteration stops at the shortest list. -/
def mapLoop {α : Type} (func : GpuContext → TFNet → PyObj → PyObj → α) :
    Nat → List TFNet → List PyObj → List PyObj → List α
  | _, [], _, _ => []
  | _, _ :: _, [], _ => []
  | _, _ :: _, _ :: _, [] => []
  | i, net :: ns, prediction :: ps, truth :: ts =>
    func (_gpu_context i) net prediction truth ::
      mapLoop func (i + 1) ns ps ts

/-- Embedding of `TFTaskBase.map(func)`. -/
def TFTaskBase.map {α : Type} (t : TFTaskBase)
    (func : GpuContext → TFNet → PyObj → PyObj → α) : List α :=
  mapLoop func 0 t.nets t.predictions t.truths

/-- Embedding of `TFTaskBase.map_train()`: `list(self.map(self.train))`. -/
def TFTaskBase.map_train (t : TFTaskBase) : List PyObj :=
  t.map t.trainOverride

/-- Embedding of `TFTaskBase.map_eval()`: `list(self.map(self.eval))`. -/
def TFTaskBase.map_eval (t : TFTaskBase) : List PyObj :=
  t.map t.evalOverride

/-- Embedding of the unimplemented base `TFTaskBase.generate()`: raises
`NotImplementedError` with its descriptive message and never returns. -/
def TFTaskBase.generate : Except NotImplementedError (List (PyObj × PyObj)) :=
  Except.error ⟨"Please implement .generate() which produces training/validation samples and the expected truth results."⟩

/-- Embedding of the unimplemented base `TFTaskBase.augment(serialized)`. -/
def TFTaskBase.augment (serialized : PyObj) :
    Except NotImplementedError (List (PyObj × PyObj)) :=
  Except.error ⟨"Please implement .augment() which augments input tensors."⟩

/-- Embedding of the unimplemented base
`TFTaskBase.train(net, prediction, truth)`. -/
def TFTaskBase.train (net : TFNet) (prediction truth : PyObj) :
    Except NotImplementedError PyObj :=
  Except.error ⟨"Please implement .train() which returns the loss tensor."⟩

/-- Embedding of the unimplemented base
`TFTaskBase.eval(net, prediction, truth)`. -/
def TFTaskBase.eval (net : TFNet) (prediction truth : PyObj) :
    Except NotImplementedError PyObj :=
  Except.error ⟨"Please implement .eval() which returns the evaluation metrics."⟩

/-- Embedding of the unimplemented base
`TFTaskBase.test(name, inputs, prediction)`. -/
def TFTaskBase.test (name inputs prediction : PyObj) :
    Except NotImplementedError PyObj :=
  Except.error ⟨"Please implement .test() which produces human-readable output for a given input."⟩

/-! ### Concrete sessions and tasks used as witnesses and counterexamples -/

/-- A training-mode session with one configured GPU. -/
def sampleSession : Session :=
  { config := { system := { num_gpus := 1, search_path := ⟨⟨[]⟩⟩ },
                model := PyObj.str "model" },
    mode := "train", isTest := false }

/-- A concrete `net.outputs()` query: the raw replica output is derived
from its input data. -/
def sampleOutputs : TFNet → PyObj := fun net => net.data

/-- A concrete one-pair `generate()` data source. -/
def sampleGen : List (PyObj × PyObj) := [(PyObj.tensor 0, PyObj.tensor 1)]

/-- A concrete (unused) `augment` hook. -/
def sampleAugment : PyObj → List (PyObj × PyObj) := fun _ => []

/-- A concrete `train` override. -/
def sampleTrain : GpuContext → TFNet → PyObj → PyObj → PyObj :=
  fun _ _ prediction _ => prediction

/-- A concrete `eval` override. -/
def sampleEval : GpuContext → TFNet → PyObj → PyObj → PyObj :=
  fun _ _ _ truth => truth

/-- A concrete one-replica training task. -/
def sampleTask : TFTaskBase :=
  TFTaskBase.init sampleSession sampleGen sampleAugment sampleOutputs
    transform sampleTrain sampleEval

/-- A concrete two-pair `generate()` data source. -/
def sampleGen2 : List (PyObj × PyObj) :=
  [(PyObj.tensor 0, PyObj.tensor 1), (PyObj.tensor 2, PyObj.tensor 3)]

/-- A concrete two-replica training task. -/
def sampleTask2 : TFTaskBase :=
  TFTaskBase.init sampleSession sampleGen2 sampleAugment sampleOutputs
    transform sampleTrain sampleEval

/-- A training-mode session configured with `num_gpus = 2`. -/
def cexSession : Session :=
  { config := { system := { num_gpus := 2, search_path := ⟨⟨[]⟩⟩ },
                model := PyObj.str "model" },
    mode := "train", isTest := false }

/-- A task whose session configures two GPUs but whose `generate()` yields a
single pair: construction never consults `num_gpus`, so only one replica is
built. -/
def cexTask : TFTaskBase :=
  TFTaskBase.init cexSession sampleGen sampleAugment sampleOutputs
    transform sampleTrain sampleEval

/-! ### Basic lemmas about the registration helper -/

/-- On a non-mapping string argument `registerAux` emits the single
`estimator.register(mapping, root, history)` call. -/
theorem registerAux_str (mode : String) (root : PyObj) (s : String) :
    registerAux mode root (PyObj.str s) =
      [{ value := PyObj.str s, path := root, history := historyOf mode }] := by
  simp [registerAux]

/-- Closed form of the item loop of `_register_estimates.register`: every
recursive call — `register` applied to the value and the dotted-path
string — immediately registers,
because its `mapping` argument is the dotted-path string. -/
theorem registerList_eq (mode : String) (root : PyObj)
    (kvs : List (String × PyObj)) :
    registerList mode root kvs = kvs.map (fun kv =>
      { value := PyObj.str (root.format ++ "." ++ kv.1), path := kv.2,
        history := historyOf mode }) := by
  induction kvs with
  | nil => simp [registerList]
  | cons kv rest ih =>
    obtain ⟨k, v⟩ := kv
    simp [registerList, registerAux_str, ih]

/-- Every call emitted by `registerAux` carries the history window
`historyOf mode`. -/
theorem registerAux_history (mode : String) (root m : PyObj) (c : RegCall)
    (h : c ∈ registerAux mode root m) : c.history = historyOf mode := by
  cases m with
  | map kvs =>
    rw [show registerAux mode root (PyObj.map kvs) =
        registerList mode root kvs by simp [registerAux]] at h
    rw [registerList_eq] at h
    obtain ⟨kv, _, rfl⟩ := List.mem_map.mp h
    rfl
  | none => simp [registerAux] at h; subst h; rfl
  | str s => simp [registerAux] at h; subst h; rfl
  | tensor n => simp [registerAux] at h; subst h; rfl

/-- Every call emitted by `_register_estimates` carries the history window
`historyOf mode`. -/
theorem register_estimates_history (mode : String) (prediction truth : PyObj)
    (c : RegCall) (h : c ∈ _register_estimates mode prediction truth) :
    c.history = historyOf mode := by
  rcases List.mem_append.mp h with h' | h'
  · exact registerAux_history mode (PyObj.str "prediction") prediction c h'
  · exact registerAux_history mode (PyObj.str "truth") truth c h'

/-! ### Closed form of the instantiation loop -/

/-- `bool(nets)` in terms of the accumulated length. -/
theorem bool_nets_eq (l : List TFNet) : (!l.isEmpty) = decide (l.length ≠ 0) := by
  cases l <;> simp

/-- No iteration with positive index registers estimates. -/
theorem regsOf_succ (session : Session) (isTest : Bool) (mode : String)
    (model : PyObj) (outputs : TFNet → PyObj)
    (transformFn : TFNet → PyObj → PyObj → PyObj → PyObj × PyObj × PyObj)
    (i₀ : Nat) (pairs : List (PyObj × PyObj)) :
    regsOf session isTest mode model outputs transformFn (i₀ + 1) pairs = [] := by
  cases pairs <;> simp [regsOf]

/-- No iteration with positive index invokes `_register_estimates`. -/
theorem invOf_succ (i₀ : Nat) (pairs : List (PyObj × PyObj)) :
    invOf (i₀ + 1) pairs = 0 := by
  cases pairs <;> simp [invOf]

/-- Closed form of the `_instantiate_nets` loop: starting at index `i₀` with
`i₀` nets accumulated, iteration `i₀ + j` processes the `j`-th remaining pair,
each sequence is the pointwise image of the enumerated pairs, estimates are
registered exactly at index 0, and the estimator is mutated only there. -/
theorem instantiateLoop_eq (session : Session) (isTest : Bool) (mode : String)
    (model : PyObj) (outputs : TFNet → PyObj)
    (transformFn : TFNet → PyObj → PyObj → PyObj → PyObj × PyObj × PyObj) :
    ∀ (pairs : List (PyObj × PyObj)) (i₀ : Nat) (acc : List TFNet),
      acc.length = i₀ →
      instantiateLoop session isTest mode model outputs transformFn pairs i₀ acc =
        { nets := (pairs.enumFrom i₀).map (replicaNet session model),
          inputs := (pairs.enumFrom i₀).map
            (replicaInput session isTest model outputs transformFn),
          predictions := (pairs.enumFrom i₀).map
            (replicaPrediction session isTest model outputs transformFn),
          truths := (pairs.enumFrom i₀).map
            (replicaTruth session isTest model outputs transformFn),
          names := (pairs.enumFrom i₀).map (replicaName isTest),
          regCalls := regsOf session isTest mode model outputs transformFn i₀ pairs,
          regInvocations := invOf i₀ pairs } := by
  intro pairs
  induction pairs with
  | nil =>
    intro i₀ acc h
    rfl
  | cons p rest ih =>
    intro i₀ acc h
    obtain ⟨data, additional⟩ := p
    have hreuse : (!acc.isEmpty) = decide (i₀ ≠ 0) := by
      subst h; exact bool_nets_eq acc
    simp only [instantiateLoop]
    rw [ih (i₀ + 1) _ (by simp [h])]
    simp only [hreuse, List.enumFrom_cons, List.map_cons, regsOf_succ,
      invOf_succ, List.append_nil, Nat.add_zero]
    simp only [regsOf, invOf, replicaNet, replicaInput, replicaPrediction,
      replicaTruth, replicaTriple, replicaName]

/-! ### Closed form of `map` -/

/-- Closed form of the `map` generator loop on lists of equal length:
element `j` is the function applied, under `_gpu_context (i₀ + j)`, to the
`j`-th entries of the three parallel lists. -/
theorem mapLoop_eq {α : Type} (func : GpuContext → TFNet → PyObj → PyObj → α) :
    ∀ (ns : List TFNet) (ps ts : List PyObj) (i₀ : Nat),
      ns.length = ps.length → ns.length = ts.length →
      mapLoop func i₀ ns ps ts = (List.range ns.length).map (fun j =>
        func (_gpu_context (i₀ + j)) (ns.getD j default) (ps.getD j default)
          (ts.getD j default)) := by
  intro ns
  induction ns with
  | nil =>
    intro ps ts i₀ hp ht
    simp [mapLoop]
  | cons n ns ih =>
    intro ps ts i₀ hp ht
    cases ps with
    | nil => simp at hp
    | cons p ps =>
      cases ts with
      | nil => simp at ht
      | cons t ts =>
        simp only [mapLoop, List.length_cons, List.range_succ_eq_map,
          List.map_cons, List.map_map]
        rw [ih ps ts (i₀ + 1) (by simpa using hp) (by simpa using ht)]
        refine congrArg₂ _ (by simp) ?_
        refine List.map_congr_left ?_
        intro j hj
        have : i₀ + 1 + j = i₀ + (j + 1) := by omega
        simp [Function.comp, this]

/-! ### Closed form of task construction -/

/-- Mapping a function of the pair only over an enumeration forgets the
indices. -/
theorem map_snd_enumFrom {α β : Type} (f : α → β) :
    ∀ (l : List α) (n : Nat),
      (List.enumFrom n l).map (fun ip => f ip.2) = l.map f := by
  intro l
  induction l with
  | nil => intro n; rfl
  | cons a l ih => intro n; simp [List.enumFrom_cons, ih]

/-- Closed form of `TFTaskBase.__init__`: every field of the constructed task
in terms of the data-source pairs. -/
theorem TFTaskBase.init_eq (session : Session)
    (genPairs : List (PyObj × PyObj))
    (augmentFn : PyObj → List (PyObj × PyObj))
    (outputs : TFNet → PyObj)
    (transformFn : TFNet → PyObj → PyObj → PyObj → PyObj × PyObj × PyObj)
    (trainFn evalFn : GpuContext → TFNet → PyObj → PyObj → PyObj) :
    TFTaskBase.init session genPairs augmentFn outputs transformFn trainFn evalFn =
      { session := session, is_test := session.isTest, config := session.config,
        num_gpus := session.config.system.num_gpus, mode := session.mode,
        nets := ((pairsOf session genPairs augmentFn).enumFrom 0).map
          (replicaNet session session.config.model),
        inputs := ((pairsOf session genPairs augmentFn).enumFrom 0).map
          (replicaInput session session.isTest session.config.model outputs transformFn),
        predictions := ((pairsOf session genPairs augmentFn).enumFrom 0).map
          (replicaPrediction session session.isTest session.config.model outputs transformFn),
        truths := ((pairsOf session genPairs augmentFn).enumFrom 0).map
          (replicaTruth session session.isTest session.config.model outputs transformFn),
        names := ((pairsOf session genPairs augmentFn).enumFrom 0).map
          (replicaName session.isTest),
        regCalls := regsOf session session.isTest session.mode
          session.config.model outputs transformFn 0
          (pairsOf session genPairs augmentFn),
        regInvocations := invOf 0 (pairsOf session genPairs augmentFn),
        trainOverride := trainFn, evalOverride := evalFn } := by
  unfold TFTaskBase.init
  rw [instantiateLoop_eq session session.isTest session.mode
    session.config.model outputs transformFn
    (pairsOf session genPairs augmentFn) 0 [] rfl]

/-! ### Claims -/

/-- C1 (counterexample): the claim "after construction the sequences have
length exactly `config.system.num_gpus`" is false: `_instantiate_nets`
iterates over the data source, never over `range(num_gpus)`, so a session
configured with `num_gpus = 2` (≥ 1) whose `generate()` yields one pair
produces sequences of length 1, not 2. -/
theorem C1_counterexample :
    1 ≤ cexTask.num_gpus ∧
    cexTask.num_gpus = 2 ∧
    cexTask.nets.length = 1 ∧ cexTask.inputs.length = 1 ∧
    cexTask.predictions.length = 1 ∧ cexTask.truths.length = 1 ∧
    cexTask.nets.length ≠ cexTask.num_gpus := by
  rw [cexTask, TFTaskBase.init_eq]
  refine ⟨by simp [cexSession], by simp [cexSession], ?_, ?_, ?_, ?_, ?_⟩ <;>
    simp [pairsOf, cexSession, sampleGen]

/-- C1 (amended): after construction the sequences `nets`, `inputs`,
`predictions` and `truths` all have the same length — the number of pairs
yielded by the data source (`generate()` / `augment(folder)`), which need
not equal `config.system.num_gpus` — and index `i` refers in every sequence
to the replica built at iteration `i` (its net, transformed input,
transformed prediction and transformed truth). -/
theorem C1_parallel_sequences (session : Session)
    (genPairs : List (PyObj × PyObj))
    (augmentFn : PyObj → List (PyObj × PyObj))
    (outputs : TFNet → PyObj)
    (transformFn : TFNet → PyObj → PyObj → PyObj → PyObj × PyObj × PyObj)
    (trainFn evalFn : GpuContext → TFNet → PyObj → PyObj → PyObj) :
    let t := TFTaskBase.init session genPairs augmentFn outputs transformFn
      trainFn evalFn
    let ps := pairsOf session genPairs augmentFn
    t.nets.length = ps.length ∧ t.inputs.length = ps.length ∧
    t.predictions.length = ps.length ∧ t.truths.length = ps.length ∧
    t.nets = (ps.enumFrom 0).map (replicaNet session session.config.model) ∧
    t.inputs = (ps.enumFrom 0).map
      (replicaInput session session.isTest session.config.model outputs transformFn) ∧
    t.predictions = (ps.enumFrom 0).map
      (replicaPrediction session session.isTest session.config.model outputs transformFn) ∧
    t.truths = (ps.enumFrom 0).map
      (replicaTruth session session.isTest session.config.model outputs transformFn) := by
  intro t ps
  rw [show t = TFTaskBase.init session genPairs augmentFn outputs transformFn
    trainFn evalFn from rfl, TFTaskBase.init_eq]
  refine ⟨?_, ?_, ?_, ?_, rfl, rfl, rfl, rfl⟩ <;>
    simp [List.length_map, List.enumFrom_length, ps]

/-- C2 (code bug, evaluated at the failing input): for
`prediction = {"class": tensor 0}`, `truth = tensor 1` in mode `"train"`,
the recursive call of the inner `register` helper of
`_register_estimates` swaps the helper parameters `root` and `mapping`, so
the leaf is registered as `estimator.register("prediction.class", tensor 0)`
— the dotted path in the value slot and the leaf value in the path slot —
instead of `estimator.register(tensor 0, "prediction.class")`; the
spec-expected call is never made. -/
theorem C2_register_swaps_value_and_path :
    _register_estimates "train" (PyObj.map [("class", PyObj.tensor 0)])
      (PyObj.tensor 1) =
      [{ value := PyObj.str "prediction.class", path := PyObj.tensor 0,
         history := none },
       { value := PyObj.tensor 1, path := PyObj.str "truth",
         history := none }] ∧
    { value := PyObj.tensor 0, path := PyObj.str "prediction.class",
      history := (none : Option String) } ∉
      _register_estimates "train" (PyObj.map [("class", PyObj.tensor 0)])
        (PyObj.tensor 1) := by
  constructor
  · simp [_register_estimates, registerAux, registerList, historyOf,
      PyObj.format]
  · simp [_register_estimates, registerAux, registerList, historyOf,
      PyObj.format]

/-- C3: whatever the number of pairs the data source yields (hence replicas
constructed), if at least one replica is built then `_register_estimates`
is invoked exactly once during construction — at replica index 0, with
the transformed prediction and truth of replica 0 — and the whole estimator
mutation trace of construction is exactly that one registration. -/
theorem C3_registration_once (session : Session)
    (genPairs : List (PyObj × PyObj))
    (augmentFn : PyObj → List (PyObj × PyObj))
    (outputs : TFNet → PyObj)
    (transformFn : TFNet → PyObj → PyObj → PyObj → PyObj × PyObj × PyObj)
    (trainFn evalFn : GpuContext → TFNet → PyObj → PyObj → PyObj)
    (p : PyObj × PyObj) (rest : List (PyObj × PyObj))
    (h : pairsOf session genPairs augmentFn = p :: rest) :
    let t := TFTaskBase.init session genPairs augmentFn outputs transformFn
      trainFn evalFn
    t.regInvocations = 1 ∧
    t.regCalls = _register_estimates session.mode
      (replicaPrediction session session.isTest session.config.model outputs
        transformFn (0, p))
      (replicaTruth session session.isTest session.config.model outputs
        transformFn (0, p)) := by
  intro t
  rw [show t = TFTaskBase.init session genPairs augmentFn outputs transformFn
    trainFn evalFn from rfl, TFTaskBase.init_eq]
  simp [h, regsOf, invOf]

/-- C3 witness: the one-replica sample task registers exactly once, with
the transformed prediction and truth of replica 0. -/
theorem C3_witness :
    sampleTask.regInvocations = 1 ∧
    sampleTask.regCalls = _register_estimates sampleSession.mode
      (replicaPrediction sampleSession sampleSession.isTest
        sampleSession.config.model sampleOutputs transform
        (0, (PyObj.tensor 0, PyObj.tensor 1)))
      (replicaTruth sampleSession sampleSession.isTest
        sampleSession.config.model sampleOutputs transform
        (0, (PyObj.tensor 0, PyObj.tensor 1))) :=
  C3_registration_once sampleSession sampleGen sampleAugment sampleOutputs
    transform sampleTrain sampleEval (PyObj.tensor 0, PyObj.tensor 1) [] rfl

/-- C4: for a task whose replica sequences have length `N` and any `func`,
`map(func)` yields exactly `N` results, in increasing replica-index order,
the `i`-th being `func(nets[i], predictions[i], truths[i])` evaluated with
the device-binding scope `_gpu_context i` (device `/gpu:i`, scope `tower_i`)
active — the active scope is the `GpuContext` passed to `func`. -/
theorem C4_map_results {α : Type} (t : TFTaskBase)
    (func : GpuContext → TFNet → PyObj → PyObj → α) (N : Nat)
    (hn : t.nets.length = N) (hp : t.predictions.length = N)
    (ht : t.truths.length = N) :
    (t.map func).length = N ∧
    ∀ i, i < N → (t.map func)[i]? =
      some (func (_gpu_context i) (t.nets.getD i default)
        (t.predictions.getD i default) (t.truths.getD i default)) := by
  rw [TFTaskBase.map, mapLoop_eq func t.nets t.predictions t.truths 0
    (by rw [hn, hp]) (by rw [hn, ht])]
  constructor
  · simp [hn]
  · intro i hi
    rw [List.getElem?_map, List.getElem?_range (by rwa [hn])]
    simp

/-- C4 witness: element 0 of `map` over the one-replica sample task. -/
theorem C4_witness :
    (sampleTask.map sampleTrain)[0]? =
      some (sampleTrain (_gpu_context 0) (sampleTask.nets.getD 0 default)
        (sampleTask.predictions.getD 0 default)
        (sampleTask.truths.getD 0 default)) :=
  (C4_map_results sampleTask sampleTrain 1 rfl rfl rfl).2 0 (by omega)

/-- C5: for a task whose replica sequences have length `N`, `map_train()`
is the concrete ordered list of `train(nets[i], predictions[i], truths[i])`
for `i` in `range N` (each evaluated under `_gpu_context i`), and likewise
`map_eval()` with `eval`. -/
theorem C5_map_train_map_eval (t : TFTaskBase) (N : Nat)
    (hn : t.nets.length = N) (hp : t.predictions.length = N)
    (ht : t.truths.length = N) :
    t.map_train = (List.range N).map (fun i =>
      t.trainOverride (_gpu_context i) (t.nets.getD i default)
        (t.predictions.getD i default) (t.truths.getD i default)) ∧
    t.map_eval = (List.range N).map (fun i =>
      t.evalOverride (_gpu_context i) (t.nets.getD i default)
        (t.predictions.getD i default) (t.truths.getD i default)) := by
  constructor
  · rw [TFTaskBase.map_train, TFTaskBase.map, mapLoop_eq t.trainOverride
      t.nets t.predictions t.truths 0 (by rw [hn, hp]) (by rw [hn, ht]), hn]
    simp
  · rw [TFTaskBase.map_eval, TFTaskBase.map, mapLoop_eq t.evalOverride
      t.nets t.predictions t.truths 0 (by rw [hn, hp]) (by rw [hn, ht]), hn]
    simp

/-- C5 witness: `map_train` of the one-replica sample task materializes the
comprehension over `range 1`. -/
theorem C5_witness :
    sampleTask.map_train = (List.range 1).map (fun i =>
      sampleTask.trainOverride (_gpu_context i) (sampleTask.nets.getD i default)
        (sampleTask.predictions.getD i default)
        (sampleTask.truths.getD i default)) :=
  (C5_map_train_map_eval sampleTask 1 rfl rfl rfl).1

/-- C6: each base override point — `generate()`, `augment(serialized)`,
`train(net, prediction, truth)`, `eval(net, prediction, truth)`,
`test(name, inputs, prediction)` — evaluates, when invoked without a
specialization override, to a `NotImplementedError` carrying the descriptive
message naming the missing capability, and never to a returned value. -/
theorem C6_unimplemented_base_methods :
    TFTaskBase.generate = Except.error
      ⟨"Please implement .generate() which produces training/validation samples and the expected truth results."⟩ ∧
    (∀ serialized, TFTaskBase.augment serialized = Except.error
      ⟨"Please implement .augment() which augments input tensors."⟩) ∧
    (∀ net prediction truth, TFTaskBase.train net prediction truth = Except.error
      ⟨"Please implement .train() which returns the loss tensor."⟩) ∧
    (∀ net prediction truth, TFTaskBase.eval net prediction truth = Except.error
      ⟨"Please implement .eval() which returns the evaluation metrics."⟩) ∧
    (∀ name inputs prediction, TFTaskBase.test name inputs prediction = Except.error
      ⟨"Please implement .test() which produces human-readable output for a given input."⟩) :=
  ⟨rfl, fun _ => rfl, fun _ _ _ => rfl, fun _ _ _ => rfl, fun _ _ _ => rfl⟩

/-- C7: the test mode of the task is the run-time type test of the session
recorded at
construction, and every `(data, additional)` pair from the data source is
split so that in test mode `name = additional, truth = None` while
otherwise `name = None, truth = additional` (truths shown with the default
identity `transform`, names in all cases). -/
theorem C7_additional_split (session : Session)
    (genPairs : List (PyObj × PyObj))
    (augmentFn : PyObj → List (PyObj × PyObj))
    (outputs : TFNet → PyObj)
    (trainFn evalFn : GpuContext → TFNet → PyObj → PyObj → PyObj) :
    let t := TFTaskBase.init session genPairs augmentFn outputs transform
      trainFn evalFn
    let ps := pairsOf session genPairs augmentFn
    t.is_test = session.isTest ∧
    t.names = ps.map (fun p =>
      if session.isTest then p.2 else PyObj.none) ∧
    t.truths = ps.map (fun p =>
      if session.isTest then PyObj.none else p.2) := by
  intro t ps
  rw [show t = TFTaskBase.init session genPairs augmentFn outputs transform
    trainFn evalFn from rfl, TFTaskBase.init_eq]
  refine ⟨rfl, ?_, ?_⟩
  · exact map_snd_enumFrom
      (fun p : PyObj × PyObj => if session.isTest then p.2 else PyObj.none)
      (pairsOf session genPairs augmentFn) 0
  · exact map_snd_enumFrom
      (fun p : PyObj × PyObj => if session.isTest then PyObj.none else p.2)
      (pairsOf session genPairs augmentFn) 0

/-- C8: every `estimator.register` call made by the registration routine
carries `history = "infinite"` exactly when the mode of the task is
`"validate"`, and the non-infinite default (`None`) for every other mode. -/
theorem C8_history_window (mode : String) (prediction truth : PyObj)
    (c : RegCall) (h : c ∈ _register_estimates mode prediction truth) :
    (c.history = some "infinite" ↔ mode = "validate") ∧
    (mode ≠ "validate" → c.history = none) := by
  rw [register_estimates_history mode prediction truth c h, historyOf]
  by_cases hm : mode = "validate" <;> simp [hm]

/-- C8 witness: the first call registered in validate mode carries the
infinite history window. -/
theorem C8_witness :
    (({ value := PyObj.tensor 0, path := PyObj.str "prediction",
        history := some "infinite" } : RegCall).history = some "infinite" ↔
      "validate" = "validate") ∧
    ("validate" ≠ "validate" →
      ({ value := PyObj.tensor 0, path := PyObj.str "prediction",
         history := some "infinite" } : RegCall).history = none) :=
  C8_history_window "validate" (PyObj.tensor 0) PyObj.none
    { value := PyObj.tensor 0, path := PyObj.str "prediction",
      history := some "infinite" }
    (by simp [_register_estimates, registerAux, historyOf])

/-- C9: the replica at index `i` is constructed as
`TFNet(session, config.model, data_i, reuse)` from the current data tensor
`data_i = pairs[i].1` under `_gpu_context i`, with the secondary-replica
(parameter-reuse) flag `bool(nets)` equal to `i ≠ 0`: false for the first
replica and true for every later one. -/
theorem C9_secondary_replica_flag (session : Session)
    (genPairs : List (PyObj × PyObj))
    (augmentFn : PyObj → List (PyObj × PyObj))
    (outputs : TFNet → PyObj)
    (transformFn : TFNet → PyObj → PyObj → PyObj → PyObj × PyObj × PyObj)
    (trainFn evalFn : GpuContext → TFNet → PyObj → PyObj → PyObj)
    (i : Nat) (p : PyObj × PyObj)
    (h : (pairsOf session genPairs augmentFn)[i]? = some p) :
    (TFTaskBase.init session genPairs augmentFn outputs transformFn trainFn
      evalFn).nets[i]? =
      some { session := session, model := session.config.model, data := p.1,
             reuse := decide (i ≠ 0), ctx := _gpu_context i } := by
  rw [TFTaskBase.init_eq]
  show (((pairsOf session genPairs augmentFn).enumFrom 0).map
    (replicaNet session session.config.model))[i]? = _
  rw [List.getElem?_map, List.getElem?_enumFrom, h]
  simp [replicaNet]

/-- C9 witness: in the two-replica sample task, replica 1 is built from its
own data tensor with the reuse flag set. -/
theorem C9_witness :
    sampleTask2.nets[1]? =
      some { session := sampleSession, model := sampleSession.config.model,
             data := PyObj.tensor 2, reuse := decide (1 ≠ 0),
             ctx := _gpu_context 1 } :=
  C9_secondary_replica_flag sampleSession sampleGen2 sampleAugment
    sampleOutputs transform sampleTrain sampleEval 1
    (PyObj.tensor 2, PyObj.tensor 3) rfl

/-- C10: in every mode, a name entry is appended for every replica, so
`names` has the same length as `nets`, `inputs`, `predictions` and
`truths`; and outside test mode (`is_test = false`, i.e. train/validate)
every entry of `names` is `None`. -/
theorem C10_names_sequence (session : Session)
    (genPairs : List (PyObj × PyObj))
    (augmentFn : PyObj → List (PyObj × PyObj))
    (outputs : TFNet → PyObj)
    (transformFn : TFNet → PyObj → PyObj → PyObj → PyObj × PyObj × PyObj)
    (trainFn evalFn : GpuContext → TFNet → PyObj → PyObj → PyObj) :
    let t := TFTaskBase.init session genPairs augmentFn outputs transformFn
      trainFn evalFn
    (t.names.length = t.nets.length ∧ t.names.length = t.inputs.length ∧
     t.names.length = t.predictions.length ∧
     t.names.length = t.truths.length) ∧
    (session.isTest = false →
      t.names = List.replicate (pairsOf session genPairs augmentFn).length
        PyObj.none) := by
  intro t
  rw [show t = TFTaskBase.init session genPairs augmentFn outputs transformFn
    trainFn evalFn from rfl, TFTaskBase.init_eq]
  constructor
  · refine ⟨?_, ?_, ?_, ?_⟩ <;> simp [List.length_map]
  · intro hmode
    show ((pairsOf session genPairs augmentFn).enumFrom 0).map
      (replicaName session.isTest) = _
    rw [show replicaName session.isTest = fun _ : Nat × (PyObj × PyObj) =>
      PyObj.none by funext ip; simp [replicaName, hmode]]
    rw [List.map_const', List.enumFrom_length]

/-- C10 witness: the one-replica training-mode sample task has a one-entry
`names` sequence consisting of `None`. -/
theorem C10_witness :
    sampleTask.names =
      List.replicate (pairsOf sampleSession sampleGen sampleAugment).length
        PyObj.none :=
  (C10_names_sequence sampleSession sampleGen sampleAugment sampleOutputs
    transform sampleTrain sampleEval).2 rfl

end Mayo
